import Mathlib

/-!
# Decay-weighted vegetation indices: a shallow embedding of `src/code.js`

The script is an Earth Engine program.  Everything it does to an image is
pixel-local, so an image band is modelled as a function from pixel locations to
an optional sample (`none` is a masked, i.e. no-data, pixel) and the Earth
Engine operators it calls (`blend`, `multiply`, `addBands`, `reduce('sum')`,
`divide`, `byte`) are modelled by their documented pixel-wise behaviour on
binary masks.  JavaScript numbers that hold years are `Int`; the decay factors
are the exact decimal values of the literals, as rationals.
-/

namespace DecayVI

/-! ## Data model -/

/-- A pixel location of the fixed output grid. -/
abbrev Pixel := Int × Int

/-- One image band: a sample per pixel, `none` where the pixel is masked. -/
abbrev Raster := Pixel → Option ℚ

/-- A band after the cast to unsigned 8-bit integers. -/
abbrev ByteRaster := Pixel → Option Nat

/-- An Earth Engine image, as the list of its bands in band order. -/
abbrev Image := List Raster

/-- The mosaic collection `mb_col` once filtered by year and satellite, restricted to one
band and mosaicked: `mb_col year satellite band`.  A key with no image in the collection is
the raster that is masked everywhere. -/
abbrev MosaicSource := Int → String → String → Raster

/-! ## Configuration tables (lines 20-47 and 63 of the script) -/

/-- Line 20: `year_sat`, the satellite of every year. -/
def year_sat : List (Int × String) :=
  [(1985, "l5"), (1986, "l5"), (1987, "l5"), (1988, "l5"), (1989, "l5"),
   (1990, "l5"), (1991, "l5"), (1992, "l5"), (1993, "l5"), (1994, "l5"),
   (1995, "l5"), (1996, "l5"), (1997, "l5"), (1998, "l5"), (1999, "l5"),
   (2000, "l5"), (2001, "l7"), (2002, "l7"), (2003, "l5"), (2004, "l5"),
   (2005, "l5"), (2006, "l5"), (2007, "l5"), (2008, "l5"), (2009, "l5"),
   (2010, "l5"), (2011, "l7"), (2012, "l7"), (2013, "l8"), (2014, "l8"),
   (2015, "l8"), (2016, "l8"), (2017, "l8"), (2018, "l8"), (2019, "l8"),
   (2020, "l8"), (2021, "l8"), (2022, "l8"), (2023, "l8")]

/-- The property access `year_sat[y]`: `none` stands for JavaScript's `undefined`. -/
def year_sat_at (y : Int) : Option String :=
  year_sat.lookup y

/-- Line 32: `years`, the output years. -/
def years : List Int :=
  [1985, 1986, 1987, 1988, 1989, 1990, 1991, 1992, 1993, 1994,
   1995, 1996, 1997, 1998, 1999, 2000, 2001, 2002, 2003, 2004,
   2005, 2006, 2007, 2008, 2009, 2010, 2011, 2012, 2013, 2014,
   2015, 2016, 2017, 2018, 2019, 2020, 2021, 2022, 2023]

/-- The expression `years[0]`. -/
def years_first : Int :=
  years.headD 0

/-- The expression `years.slice(-1)[0]`. -/
def years_last : Int :=
  years.getLastD 0

/-- Line 43: `mb_indices_year`, the nine source band names. -/
def mb_indices_year : List String :=
  ["ndvi_median", "ndvi_median_wet", "ndvi_median_dry",
   "evi2_median", "evi2_median_wet", "evi2_median_dry",
   "savi_median", "savi_median_wet", "savi_median_dry"]

/-- Line 63: `alfa_07`, the decay factors, lag 0 first. -/
def alfa_07 : List ℚ :=
  [327 / 1000, 229 / 1000, 160 / 1000, 112 / 1000, 78 / 1000, 55 / 1000, 38 / 1000]

/-! ## JavaScript and Earth Engine primitives -/

/-- The JavaScript `Array.prototype.indexOf`: the first position holding `x`, or `-1`. -/
def indexOf (xs : List ℚ) (x : ℚ) : Int :=
  match xs with
  | [] => -1
  | a :: rest =>
    if a = x then 0
    else
      let r := indexOf rest x
      if r < 0 then -1 else r + 1

/-- The raster masked everywhere (an image without data for the requested key). -/
def emptyRaster : Raster :=
  fun _ => none

/-- The call `bottom.blend(top)`: `top` is overlaid on `bottom`, so the result shows `top`
wherever `top` is unmasked and `bottom` elsewhere. -/
def blend (bottom top : Raster) : Raster :=
  fun p =>
    match top p with
    | some v => some v
    | none => bottom p

/-- The call `img.multiply(factor)` with a numeric constant: masked pixels stay masked. -/
def multiply (img : Raster) (factor : ℚ) : Raster :=
  fun p => (img p).map (fun v => v * factor)

/-- The call `img.divide(d)` with a numeric constant: masked pixels stay masked. -/
def divide (img : Raster) (d : ℚ) : Raster :=
  fun p => (img p).map (fun v => v / d)

/-- The call `container.addBands(band)`: the band is appended; a band whose name is already
present is kept under a suffixed name (`overwrite` defaults to false), never replaced. -/
def addBands (container : Image) (band : Raster) : Image :=
  container ++ [band]

/-- The unmasked samples of all bands of an image at one pixel, in band order. -/
def validSamples (img : Image) (p : Pixel) : List ℚ :=
  img.filterMap (fun band => band p)

/-- The call `img.reduce('sum')`: at every pixel the sum reducer receives the unmasked band
values only; the output pixel is masked exactly when no band is unmasked there. -/
def reduceSum (img : Image) : Raster :=
  fun p =>
    match validSamples img p with
    | [] => none
    | v :: vs => some (v :: vs).sum

/-- The cast of one sample to an unsigned 8-bit integer: the fraction is dropped (rounding
toward zero) and the result is saturated to the range 0..255, so every negative sample
becomes 0. -/
def toByte (q : ℚ) : Nat :=
  min 255 ⌊q⌋₊

/-- The call `img.byte()`. -/
def byte (img : Raster) : ByteRaster :=
  fun p => (img p).map toByte

/-! ## Dates (lines 163-164)

`ee.Date(text)` reads an ISO 8601 calendar date as midnight UTC of that day of the
proleptic Gregorian calendar and `.millis()` is the number of milliseconds since
1970-01-01T00:00:00Z. -/

/-- The value of a non-empty run of decimal digits. -/
def digitsValue (cs : List Char) : Option Nat :=
  match cs with
  | [] => none
  | _ :: _ =>
    cs.foldl
      (fun acc c => acc.bind (fun n => if c.isDigit then some (10 * n + (c.toNat - 48)) else none))
      (some 0)

/-- The fields of a text separated by `-`, the field being read given first. -/
def splitDash (cur : List Char) (cs : List Char) : List (List Char) :=
  match cs with
  | [] => [cur.reverse]
  | c :: rest =>
    if c = '-' then cur.reverse :: splitDash [] rest else splitDash (c :: cur) rest

/-- Leap years of the Gregorian calendar. -/
def isLeapYear (y : Int) : Bool :=
  y % 4 = 0 && (y % 100 ≠ 0 || y % 400 = 0)

/-- The number of days of a month, 0 for a month number out of range. -/
def daysInMonth (y : Int) (m : Nat) : Nat :=
  if m = 2 then (if isLeapYear y then 29 else 28)
  else if m = 4 ∨ m = 6 ∨ m = 9 ∨ m = 11 then 30
  else if 1 ≤ m ∧ m ≤ 12 then 31
  else 0

/-- The number of leap years among the years 1..y. -/
def leapYearsUpTo (y : Int) : Int :=
  y / 4 - y / 100 + y / 400

/-- Days from 1970-01-01 to the first of January of year `y`. -/
def daysBeforeYear (y : Int) : Int :=
  365 * (y - 1970) + (leapYearsUpTo (y - 1) - leapYearsUpTo 1969)

/-- Days from the first of January of year `y` to the first of month `m` of that year. -/
def daysBeforeMonth (y : Int) (m : Nat) : Nat :=
  ((List.range (m - 1)).map (fun k => daysInMonth y (k + 1))).sum

/-- Milliseconds from the epoch to midnight UTC of the calendar day `y-m-d`. -/
def utcMillis (y : Int) (m d : Nat) : Int :=
  (daysBeforeYear y + daysBeforeMonth y m + ((d : Int) - 1)) * 86400000

/-- The expression `ee.Date(text).millis()` for a text of the shape `YYYY-MM-DD`; `none`
when the text is not a calendar date. -/
def eeDateMillis (text : String) : Option Int :=
  match (splitDash [] text.toList).map digitsValue with
  | [some y, some m, some d] =>
    if 1 ≤ m ∧ m ≤ 12 ∧ 1 ≤ d ∧ d ≤ daysInMonth y m then some (utcMillis y m d) else none
  | _ => none

/-! ## The per-year callback (lines 50-171) -/

/-- The nine accumulating images of the callback, declared on lines 52-60. -/
structure Containers where
  container_ndvi : Image
  container_ndvi_wet : Image
  container_ndvi_dry : Image
  container_evi2 : Image
  container_evi2_wet : Image
  container_evi2_dry : Image
  container_savi : Image
  container_savi_wet : Image
  container_savi_dry : Image

/-- Lines 52-60: every container starts as `ee.Image().select()`, an image without bands. -/
def Containers.initial : Containers :=
  { container_ndvi := [], container_ndvi_wet := [], container_ndvi_dry := [],
    container_evi2 := [], container_evi2_wet := [], container_evi2_dry := [],
    container_savi := [], container_savi_wet := [], container_savi_dry := [] }

/-- Lines 67-70: the contributing year of a factor, clamped below at `years[0]`. -/
def year_decay (year : Int) (factor : ℚ) : Int :=
  let year_decay := year - indexOf alfa_07 factor
  if year_decay < years_first then years_first else year_decay

/-- Lines 73, 76-77 and 80-81: `year_prev` after the two boundary tests. -/
def year_prev (year_decay : Int) : Int :=
  let year_prev := year_decay - 1
  let year_prev := if year_decay = years_first then year_decay + 1 else year_prev
  if year_decay = years_last then year_decay - 1 else year_prev

/-- Lines 74, 76-78 and 80-82: `year_post` after the two boundary tests. -/
def year_post (year_decay : Int) : Int :=
  let year_post := year_decay + 1
  let year_post := if year_decay = years_first then year_decay + 2 else year_post
  if year_decay = years_last then year_decay - 2 else year_post

/-- Lines 88-101: the mosaic of one band for one year, from the satellite `year_sat[y]`.
A year without an entry in `year_sat` has no satellite to filter on and gives no image; the
callback never asks for such a year when the output year is one of `years`. -/
def index_band (mb_col : MosaicSource) (y : Int) (index : String) : Raster :=
  match year_sat_at y with
  | some satellite => mb_col y satellite index
  | none => emptyRaster

/-- Lines 104-106: `index_band_post.blend(index_band_prev).blend(index_band)`. -/
def index_blend (index_band index_band_prev index_band_post : Raster) : Raster :=
  blend (blend index_band_post index_band_prev) index_band

/-- Lines 112-140: the `switch` that adds the weighted layer to the container of its index. -/
def addToContainer (c : Containers) (index : String) (index_mean : Raster) : Containers :=
  if index = "ndvi_median" then
    { c with container_ndvi := addBands c.container_ndvi index_mean }
  else if index = "ndvi_median_wet" then
    { c with container_ndvi_wet := addBands c.container_ndvi_wet index_mean }
  else if index = "ndvi_median_dry" then
    { c with container_ndvi_dry := addBands c.container_ndvi_dry index_mean }
  else if index = "evi2_median" then
    { c with container_evi2 := addBands c.container_evi2 index_mean }
  else if index = "evi2_median_wet" then
    { c with container_evi2_wet := addBands c.container_evi2_wet index_mean }
  else if index = "evi2_median_dry" then
    { c with container_evi2_dry := addBands c.container_evi2_dry index_mean }
  else if index = "savi_median" then
    { c with container_savi := addBands c.container_savi index_mean }
  else if index = "savi_median_wet" then
    { c with container_savi_wet := addBands c.container_savi_wet index_mean }
  else if index = "savi_median_dry" then
    { c with container_savi_dry := addBands c.container_savi_dry index_mean }
  else c

/-- Lines 86-141: the body of `mb_indices_year.forEach` for one index. -/
def indexStep (mb_col : MosaicSource) (year_decay year_prev year_post : Int) (factor : ℚ)
    (c : Containers) (index : String) : Containers :=
  let index_blend :=
    index_blend (index_band mb_col year_decay index) (index_band mb_col year_prev index)
      (index_band mb_col year_post index)
  let index_mean := multiply index_blend factor
  addToContainer c index index_mean

/-- Lines 66-142: the body of `alfa_07.forEach` for one factor. -/
def lagStep (mb_col : MosaicSource) (year : Int) (c : Containers) (factor : ℚ) : Containers :=
  let year_decay := year_decay year factor
  let year_prev := year_prev year_decay
  let year_post := year_post year_decay
  mb_indices_year.foldl (indexStep mb_col year_decay year_prev year_post factor) c

/-- Lines 52-142: the containers once `alfa_07.forEach` has run. -/
def accumulate (mb_col : MosaicSource) (year : Int) : Containers :=
  alfa_07.foldl (lagStep mb_col year) Containers.initial

/-- Lines 145-153: `.reduce('sum').divide(100).byte()` of one container. -/
def finalize (container : Image) : ByteRaster :=
  byte (divide (reduceSum container) 100)

/-- The image returned by the callback: its renamed bands in band order and the three
properties set on lines 166-170. -/
structure Scene where
  bands : List (String × ByteRaster)
  year : Int
  time_start : Option Int
  time_end : Option Int

/-- Lines 50-171: the function mapped over `years`. -/
def callback (mb_col : MosaicSource) (year : Int) : Scene :=
  let c := accumulate mb_col year
  { bands :=
      [("mb_ndvi_median", finalize c.container_ndvi),
       ("mb_ndvi_median_wet", finalize c.container_ndvi_wet),
       ("mb_ndvi_median_dry", finalize c.container_ndvi_dry),
       ("mb_evi2_median", finalize c.container_evi2),
       ("mb_evi2_median_wet", finalize c.container_evi2_wet),
       ("mb_evi2_median_dry", finalize c.container_evi2_dry),
       ("mb_savi_median", finalize c.container_savi),
       ("mb_savi_median_wet", finalize c.container_savi_wet),
       ("mb_savi_median_dry", finalize c.container_savi_dry)]
    year := year
    time_start := eeDateMillis (toString year ++ "-01-01")
    time_end := eeDateMillis (toString (year + 1) ++ "-01-01") }

/-! ## Reference definitions, in the words of the specification -/

/-- The gap-filled raster of a contributing year `c`: the three-way overlay of the mosaics
of `c` and of the two neighbour years the callback derives from `c`. -/
def gapFilled (mb_col : MosaicSource) (c : Int) (index : String) : Raster :=
  index_blend (index_band mb_col c index) (index_band mb_col (year_prev c) index)
    (index_band mb_col (year_post c) index)

/-- The specification's seven weighted layers of a band: layer `i` is the gap-filled raster
of the year `max (year - i) 1985`, times the weight at position `i`. -/
def weightedLayers (mb_col : MosaicSource) (year : Int) (index : String) : Image :=
  (List.range 7).map
    (fun (i : Nat) =>
      multiply (gapFilled mb_col (max (year - (i : Int)) 1985) index) (alfa_07.getD i 0))

/-- The specification's neighbour rule for a contributing year `c`, as (previous, post). -/
def neighbourYears (c : Int) : Int × Int :=
  if c = 1985 then (c + 1, c + 2)
  else if c = 2023 then (c - 1, c - 2)
  else (c - 1, c + 1)

/-- The specification's priority pick among three optional samples: the target, else the
previous year, else the post year, else no-data. -/
def firstPresent (target prev post : Option ℚ) : Option ℚ :=
  match target, prev, post with
  | some v, _, _ => some v
  | none, some v, _ => some v
  | none, none, r => r

/-- Midnight UTC of the first of January of year `y`, counted year by year from 1970. -/
def janFirstMillis (y : Int) : Int :=
  86400000 *
    (((List.range (y - 1970).toNat).map
      (fun (k : Nat) => if isLeapYear (1970 + (k : Int)) then (366 : Int) else 365)).sum)

/-- The band of a scene with a given name, masked everywhere when there is no such band. -/
def Scene.band (s : Scene) (name : String) : ByteRaster :=
  match s.bands.lookup name with
  | some r => r
  | none => fun _ => none

/-! ## Concrete mosaic sources -/

/-- A source whose every mosaic is the constant raster of value `v`, without masked pixel. -/
def constantSource (v : ℚ) : MosaicSource :=
  fun _ _ _ _ => some v

/-- A source that is masked everywhere up to 1987 and has the constant value 10000 from
1988 on. -/
def lateSource : MosaicSource :=
  fun y _ _ _ => if y ≤ 1987 then none else some 10000

end DecayVI

namespace DecayVI

/-! ## Basic facts about the tables -/

theorem years_first_eq : years_first = 1985 := rfl

theorem years_last_eq : years_last = 2023 := rfl

theorem mem_years_iff (y : Int) : y ∈ years ↔ 1985 ≤ y ∧ y ≤ 2023 := by
  constructor
  · intro h
    simp only [years, List.mem_cons, List.mem_singleton, List.not_mem_nil, or_false] at h
    omega
  · rintro ⟨h1, h2⟩
    interval_cases y <;> decide

theorem mem_alfa_07_iff (w : ℚ) :
    w ∈ alfa_07 ↔ w = 327 / 1000 ∨ w = 229 / 1000 ∨ w = 160 / 1000 ∨ w = 112 / 1000 ∨
      w = 78 / 1000 ∨ w = 55 / 1000 ∨ w = 38 / 1000 := by
  simp [alfa_07]

theorem indexOf_alfa_07 :
    indexOf alfa_07 (327 / 1000) = 0 ∧ indexOf alfa_07 (229 / 1000) = 1 ∧
    indexOf alfa_07 (160 / 1000) = 2 ∧ indexOf alfa_07 (112 / 1000) = 3 ∧
    indexOf alfa_07 (78 / 1000) = 4 ∧ indexOf alfa_07 (55 / 1000) = 5 ∧
    indexOf alfa_07 (38 / 1000) = 6 := by
  refine ⟨?_, ?_, ?_, ?_, ?_, ?_, ?_⟩ <;> norm_num [indexOf, alfa_07]

/-- The contributing year of every factor is the lag-shifted year clamped below at 1985. -/
theorem year_decay_alfa_07 (y : Int) :
    year_decay y (327 / 1000) = max (y - 0) 1985 ∧ year_decay y (229 / 1000) = max (y - 1) 1985 ∧
    year_decay y (160 / 1000) = max (y - 2) 1985 ∧ year_decay y (112 / 1000) = max (y - 3) 1985 ∧
    year_decay y (78 / 1000) = max (y - 4) 1985 ∧ year_decay y (55 / 1000) = max (y - 5) 1985 ∧
    year_decay y (38 / 1000) = max (y - 6) 1985 := by
  obtain ⟨h0, h1, h2, h3, h4, h5, h6⟩ := indexOf_alfa_07
  simp only [year_decay, years_first_eq, h0, h1, h2, h3, h4, h5, h6]
  refine ⟨?_, ?_, ?_, ?_, ?_, ?_, ?_⟩ <;> split_ifs <;> omega

theorem year_prev_eq (c : Int) :
    year_prev c = if c = 2023 then c - 1 else if c = 1985 then c + 1 else c - 1 := by
  simp only [year_prev, years_first_eq, years_last_eq]

theorem year_post_eq (c : Int) :
    year_post c = if c = 2023 then c - 2 else if c = 1985 then c + 2 else c + 1 := by
  simp only [year_post, years_first_eq, years_last_eq]

theorem year_sat_at_isSome (q : Int) (h1 : 1985 ≤ q) (h2 : q ≤ 2023) :
    (year_sat_at q).isSome = true := by
  interval_cases q <;> rfl

/-! ## The accumulation loop, unfolded -/

theorem weightedLayers_eq (mb_col : MosaicSource) (y : Int) (index : String) :
    weightedLayers mb_col y index =
      [multiply (gapFilled mb_col (max (y - 0) 1985) index) (327 / 1000),
       multiply (gapFilled mb_col (max (y - 1) 1985) index) (229 / 1000),
       multiply (gapFilled mb_col (max (y - 2) 1985) index) (160 / 1000),
       multiply (gapFilled mb_col (max (y - 3) 1985) index) (112 / 1000),
       multiply (gapFilled mb_col (max (y - 4) 1985) index) (78 / 1000),
       multiply (gapFilled mb_col (max (y - 5) 1985) index) (55 / 1000),
       multiply (gapFilled mb_col (max (y - 6) 1985) index) (38 / 1000)] := by
  rfl

/-- One pass of the factor loop appends one weighted layer to each of the nine containers. -/
theorem lagStep_eq (mb_col : MosaicSource) (y : Int) (c : Containers) (factor : ℚ) :
    lagStep mb_col y c factor =
      { container_ndvi :=
          c.container_ndvi ++ [multiply (gapFilled mb_col (year_decay y factor) "ndvi_median") factor]
        container_ndvi_wet :=
          c.container_ndvi_wet ++
            [multiply (gapFilled mb_col (year_decay y factor) "ndvi_median_wet") factor]
        container_ndvi_dry :=
          c.container_ndvi_dry ++
            [multiply (gapFilled mb_col (year_decay y factor) "ndvi_median_dry") factor]
        container_evi2 :=
          c.container_evi2 ++ [multiply (gapFilled mb_col (year_decay y factor) "evi2_median") factor]
        container_evi2_wet :=
          c.container_evi2_wet ++
            [multiply (gapFilled mb_col (year_decay y factor) "evi2_median_wet") factor]
        container_evi2_dry :=
          c.container_evi2_dry ++
            [multiply (gapFilled mb_col (year_decay y factor) "evi2_median_dry") factor]
        container_savi :=
          c.container_savi ++ [multiply (gapFilled mb_col (year_decay y factor) "savi_median") factor]
        container_savi_wet :=
          c.container_savi_wet ++
            [multiply (gapFilled mb_col (year_decay y factor) "savi_median_wet") factor]
        container_savi_dry :=
          c.container_savi_dry ++
            [multiply (gapFilled mb_col (year_decay y factor) "savi_median_dry") factor] } := by
  rfl

theorem accumulate_eq (mb_col : MosaicSource) (y : Int) :
    accumulate mb_col y =
      { container_ndvi := weightedLayers mb_col y "ndvi_median"
        container_ndvi_wet := weightedLayers mb_col y "ndvi_median_wet"
        container_ndvi_dry := weightedLayers mb_col y "ndvi_median_dry"
        container_evi2 := weightedLayers mb_col y "evi2_median"
        container_evi2_wet := weightedLayers mb_col y "evi2_median_wet"
        container_evi2_dry := weightedLayers mb_col y "evi2_median_dry"
        container_savi := weightedLayers mb_col y "savi_median"
        container_savi_wet := weightedLayers mb_col y "savi_median_wet"
        container_savi_dry := weightedLayers mb_col y "savi_median_dry" } := by
  obtain ⟨h0, h1, h2, h3, h4, h5, h6⟩ := year_decay_alfa_07 y
  simp only [weightedLayers_eq]
  simp only [accumulate, alfa_07, List.foldl_cons, List.foldl_nil, lagStep_eq, h0, h1, h2, h3, h4,
    h5, h6, Containers.initial, List.nil_append, List.cons_append]


theorem callback_bands (mb_col : MosaicSource) (y : Int) :
    (callback mb_col y).bands =
      mb_indices_year.map (fun index => ("mb_" ++ index, finalize (weightedLayers mb_col y index))) := by
  simp only [callback, accumulate_eq]
  rfl

theorem callback_band (mb_col : MosaicSource) (y : Int) (index : String)
    (h : index ∈ mb_indices_year) :
    (callback mb_col y).band ("mb_" ++ index) = finalize (weightedLayers mb_col y index) := by
  simp only [mb_indices_year, List.mem_cons, List.mem_singleton, List.not_mem_nil, or_false] at h
  unfold Scene.band
  rw [callback_bands]
  rcases h with h | h | h | h | h | h | h | h | h <;> subst h <;> rfl

theorem toByte_eq_of_bounds (q : ℚ) (n : Nat) (hn : n ≤ 255) (h1 : (n : ℚ) ≤ q)
    (h2 : q < (n : ℚ) + 1) : toByte q = n := by
  have h0 : (0 : ℚ) ≤ q := le_trans (Nat.cast_nonneg n) h1
  have hfl : ⌊q⌋₊ = n := (Nat.floor_eq_iff h0).2 ⟨h1, h2⟩
  unfold toByte
  rw [hfl]
  exact min_eq_right hn

theorem time_start_eq (mb_col : MosaicSource) (y : Int) (hy : y ∈ years) :
    (callback mb_col y).time_start = some (janFirstMillis y) ∧
    (callback mb_col y).time_end = some (janFirstMillis (y + 1)) := by
  rw [mem_years_iff] at hy
  obtain ⟨h1, h2⟩ := hy
  simp only [callback]
  interval_cases y <;> exact ⟨by rfl, by rfl⟩

theorem finalize_apply (img : Image) (p : Pixel) :
    finalize img p =
      match validSamples img p with
      | [] => none
      | v :: vs => some (toByte ((v :: vs).sum / 100)) := by
  unfold finalize byte divide reduceSum
  cases validSamples img p <;> rfl

theorem indexOf_alfa_07_getD (i : Nat) (hi : i < 7) :
    indexOf alfa_07 (alfa_07.getD i 0) = (i : Int) := by
  obtain ⟨h0, h1, h2, h3, h4, h5, h6⟩ := indexOf_alfa_07
  interval_cases i
  · exact h0
  · exact h1
  · exact h2
  · exact h3
  · exact h4
  · exact h5
  · exact h6

theorem finalize_weightedLayers_present (mb_col : MosaicSource) (y : Int) (index : String)
    (p : Pixel) (v : Nat → ℚ)
    (hv : ∀ i : Nat, i < 7 → gapFilled mb_col (max (y - (i : Int)) 1985) index p = some (v i)) :
    finalize (weightedLayers mb_col y index) p =
      some (toByte ((∑ i in Finset.range 7, v i * alfa_07.getD i 0) / 100)) := by
  have e0 := hv 0 (by norm_num)
  have e1 := hv 1 (by norm_num)
  have e2 := hv 2 (by norm_num)
  have e3 := hv 3 (by norm_num)
  have e4 := hv 4 (by norm_num)
  have e5 := hv 5 (by norm_num)
  have e6 := hv 6 (by norm_num)
  simp only [Nat.cast_zero, Nat.cast_one, Nat.cast_ofNat] at e0 e1 e2 e3 e4 e5 e6
  rw [finalize_apply, weightedLayers_eq]
  simp only [validSamples, List.filterMap_cons, List.filterMap_nil, multiply, e0, e1, e2, e3, e4,
    e5, e6, Option.map_some', Finset.sum_range_succ, Finset.sum_range_zero, alfa_07,
    List.getD_cons_zero, List.getD_cons_succ, List.sum_cons, List.sum_nil]
  congr 2
  ring

theorem year_decay_in_range (y : Int) (hy : y ∈ years) (factor : ℚ) (hf : factor ∈ alfa_07) :
    1985 ≤ year_decay y factor ∧ year_decay y factor ≤ 2023 := by
  rw [mem_years_iff] at hy
  obtain ⟨h0, h1, h2, h3, h4, h5, h6⟩ := year_decay_alfa_07 y
  rw [mem_alfa_07_iff] at hf
  rcases hf with h | h | h | h | h | h | h <;> rw [h] <;>
    first
      | (rw [h0]; omega) | (rw [h1]; omega) | (rw [h2]; omega) | (rw [h3]; omega)
      | (rw [h4]; omega) | (rw [h5]; omega) | (rw [h6]; omega)

theorem year_decay_min_year (factor : ℚ) (hf : factor ∈ alfa_07) :
    year_decay 1985 factor = 1985 := by
  obtain ⟨h0, h1, h2, h3, h4, h5, h6⟩ := year_decay_alfa_07 1985
  rw [mem_alfa_07_iff] at hf
  rcases hf with h | h | h | h | h | h | h <;> rw [h] <;>
    first
      | (rw [h0]; decide) | (rw [h1]; decide) | (rw [h2]; decide) | (rw [h3]; decide)
      | (rw [h4]; decide) | (rw [h5]; decide) | (rw [h6]; decide)

theorem toByte_mono {a b : ℚ} (h : a ≤ b) : toByte a ≤ toByte b := by
  unfold toByte
  exact min_le_min le_rfl (Nat.floor_mono h)

/-- Scaling a sample by the sum of the weights, 999/1000, lowers its byte value by at most
one unit. -/
theorem toByte_scaled_within_one (x : ℚ) :
    toByte (x * (999 / 1000)) ≤ toByte x ∧ toByte x ≤ toByte (x * (999 / 1000)) + 1 := by
  rcases lt_or_le x 0 with hneg | hpos
  · have h1 : ⌊x⌋₊ = 0 := Nat.floor_of_nonpos hneg.le
    have h2 : ⌊x * (999 / 1000)⌋₊ = 0 := Nat.floor_of_nonpos (by linarith)
    simp [toByte, h1, h2]
  · refine ⟨toByte_mono (by linarith), ?_⟩
    unfold toByte
    rcases le_or_lt 255 ⌊x * (999 / 1000)⌋₊ with hbig | hsmall
    · have : min 255 ⌊x * (999 / 1000)⌋₊ = 255 := min_eq_left hbig
      rw [this]
      exact le_trans (min_le_left _ _) (by norm_num)
    · have hs : x * (999 / 1000) < 255 := by
        have := (Nat.floor_lt (by linarith : (0 : ℚ) ≤ x * (999 / 1000))).1 hsmall
        simpa using this
      have hx : x < (⌊x * (999 / 1000)⌋₊ : ℚ) + 1 + 1 := by
        have := Nat.lt_floor_add_one (x * (999 / 1000))
        linarith
      have hfl : ⌊x⌋₊ < ⌊x * (999 / 1000)⌋₊ + 1 + 1 := by
        rw [Nat.floor_lt hpos]
        push_cast
        exact hx
      have h3 : min 255 ⌊x * (999 / 1000)⌋₊ = ⌊x * (999 / 1000)⌋₊ := min_eq_right hsmall.le
      rw [h3]
      exact le_trans (min_le_right _ _) (by omega)

theorem finalize_weightedLayers_min_year (mb_col : MosaicSource) (index : String) :
    finalize (weightedLayers mb_col 1985 index) =
      byte (divide (multiply (gapFilled mb_col 1985 index) alfa_07.sum) 100) := by
  funext p
  have hsum : alfa_07.sum = 999 / 1000 := by norm_num [alfa_07]
  have m0 : max ((1985 : Int) - 0) 1985 = 1985 := by decide
  have m1 : max ((1985 : Int) - 1) 1985 = 1985 := by decide
  have m2 : max ((1985 : Int) - 2) 1985 = 1985 := by decide
  have m3 : max ((1985 : Int) - 3) 1985 = 1985 := by decide
  have m4 : max ((1985 : Int) - 4) 1985 = 1985 := by decide
  have m5 : max ((1985 : Int) - 5) 1985 = 1985 := by decide
  have m6 : max ((1985 : Int) - 6) 1985 = 1985 := by decide
  rw [finalize_apply, weightedLayers_eq, m0, m1, m2, m3, m4, m5, m6, hsum]
  cases h : gapFilled mb_col 1985 index p with
  | none =>
    simp only [validSamples, List.filterMap_cons, List.filterMap_nil, multiply, byte, divide, h,
      Option.map_none']
  | some v =>
    simp only [validSamples, List.filterMap_cons, List.filterMap_nil, multiply, byte, divide, h,
      Option.map_some', List.sum_cons, List.sum_nil]
    congr 2
    ring

theorem finalize_eq_none_iff (img : Image) (p : Pixel) :
    finalize img p = none ↔ ∀ band ∈ img, band p = none := by
  rw [finalize_apply]
  unfold validSamples
  rw [← List.filterMap_eq_nil_iff]
  cases List.filterMap (fun band : Raster => band p) img <;> simp

theorem gapFilled_eq_none_iff (mb_col : MosaicSource) (c : Int) (index : String) (p : Pixel) :
    gapFilled mb_col c index p = none ↔
      (index_band mb_col c index p = none ∧ index_band mb_col (year_prev c) index p = none ∧
        index_band mb_col (year_post c) index p = none) := by
  unfold gapFilled index_blend blend
  cases index_band mb_col c index p <;> cases index_band mb_col (year_prev c) index p <;>
    cases index_band mb_col (year_post c) index p <;> simp

theorem weightedLayers_masked_iff (mb_col : MosaicSource) (y : Int) (index : String)
    (p : Pixel) :
    (∀ band ∈ weightedLayers mb_col y index, band p = none) ↔
      ∀ factor ∈ alfa_07, gapFilled mb_col (year_decay y factor) index p = none := by
  obtain ⟨h0, h1, h2, h3, h4, h5, h6⟩ := year_decay_alfa_07 y
  rw [weightedLayers_eq]
  simp only [alfa_07, List.forall_mem_cons, List.not_mem_nil, false_implies, implies_true,
    and_true, multiply, Option.map_eq_none', h0, h1, h2, h3, h4, h5, h6]

theorem index_band_constant (mb_col : MosaicSource) (v : ℚ)
    (h : ∀ y satellite index p, mb_col y satellite index p = some v) (q : Int)
    (h1 : 1985 ≤ q) (h2 : q ≤ 2023) (index : String) :
    index_band mb_col q index = fun _ => some v := by
  obtain ⟨satellite, hs⟩ := Option.isSome_iff_exists.1 (year_sat_at_isSome q h1 h2)
  funext p
  simp only [index_band, hs, h]

theorem gapFilled_constant (mb_col : MosaicSource) (v : ℚ)
    (h : ∀ y satellite index p, mb_col y satellite index p = some v) (q : Int)
    (h1 : 1985 ≤ q) (h2 : q ≤ 2023) (index : String) :
    gapFilled mb_col q index = index_band mb_col q index ∧
    gapFilled mb_col q index = fun _ => some v := by
  have hq := index_band_constant mb_col v h q h1 h2 index
  have : gapFilled mb_col q index = index_band mb_col q index := by
    funext p
    simp only [gapFilled, index_blend, blend, hq]
  exact ⟨this, this.trans hq⟩

theorem composite_constant (mb_col : MosaicSource) (v : ℚ)
    (h : ∀ y satellite index p, mb_col y satellite index p = some v) (y : Int) (hy : y ∈ years)
    (index : String) :
    finalize (weightedLayers mb_col y index) =
      fun _ => some (toByte ((alfa_07.map (fun w => v * w)).sum / 100)) := by
  rw [mem_years_iff] at hy
  funext p
  rw [finalize_weightedLayers_present mb_col y index p (fun _ => v)]
  · simp only [Finset.sum_range_succ, Finset.sum_range_zero, alfa_07, List.getD_cons_zero,
      List.getD_cons_succ, List.map_cons, List.map_nil, List.sum_cons, List.sum_nil]
    congr 2
    ring
  · intro i hi
    have hr : (1985 : Int) ≤ max (y - (i : Int)) 1985 ∧ max (y - (i : Int)) 1985 ≤ 2023 := by
      omega
    rw [(gapFilled_constant mb_col v h _ hr.1 hr.2 index).2]

theorem lateSource_layers :
    gapFilled lateSource (max (1990 - 0) 1985) "ndvi_median" (0, 0) = some 10000 ∧
    gapFilled lateSource (max (1990 - 1) 1985) "ndvi_median" (0, 0) = some 10000 ∧
    gapFilled lateSource (max (1990 - 2) 1985) "ndvi_median" (0, 0) = some 10000 ∧
    gapFilled lateSource (max (1990 - 3) 1985) "ndvi_median" (0, 0) = some 10000 ∧
    gapFilled lateSource (max (1990 - 4) 1985) "ndvi_median" (0, 0) = none ∧
    gapFilled lateSource (max (1990 - 5) 1985) "ndvi_median" (0, 0) = none ∧
    gapFilled lateSource (max (1990 - 6) 1985) "ndvi_median" (0, 0) = none :=
  ⟨rfl, rfl, rfl, rfl, rfl, rfl, rfl⟩

/-! ## The claims -/

/-- C1: for every output year (those of `years` in particular) the factor loop leaves in
each of the nine containers exactly the 7 weighted layers of the band, one per position of
`alfa_07` and in that order (equal contributing years are not merged): layer `i` is the
gap-filled raster of the year `max (y - i) 1985` times `alfa_07[i]`, the lag
`alfa_07.indexOf(factor)` being the position of the factor; every band of the returned image
is `reduce('sum')` of its 7 layers, divided by 100 and cast to byte, under the name `mb_`
followed by the source band name, and where all 7 layers are present it is the byte cast of
a hundredth of their sum. -/
theorem callback_seven_weighted_layers (mb_col : MosaicSource) (y : Int) :
    (∀ i : Nat, i < 7 → indexOf alfa_07 (alfa_07.getD i 0) = (i : Int)) ∧
    (∀ index, (weightedLayers mb_col y index).length = 7) ∧
    accumulate mb_col y =
      { container_ndvi := weightedLayers mb_col y "ndvi_median"
        container_ndvi_wet := weightedLayers mb_col y "ndvi_median_wet"
        container_ndvi_dry := weightedLayers mb_col y "ndvi_median_dry"
        container_evi2 := weightedLayers mb_col y "evi2_median"
        container_evi2_wet := weightedLayers mb_col y "evi2_median_wet"
        container_evi2_dry := weightedLayers mb_col y "evi2_median_dry"
        container_savi := weightedLayers mb_col y "savi_median"
        container_savi_wet := weightedLayers mb_col y "savi_median_wet"
        container_savi_dry := weightedLayers mb_col y "savi_median_dry" } ∧
    (callback mb_col y).bands =
      mb_indices_year.map
        (fun index =>
          ("mb_" ++ index, byte (divide (reduceSum (weightedLayers mb_col y index)) 100))) ∧
    (∀ index p (v : Nat → ℚ),
      (∀ i : Nat, i < 7 → gapFilled mb_col (max (y - (i : Int)) 1985) index p = some (v i)) →
      byte (divide (reduceSum (weightedLayers mb_col y index)) 100) p =
        some (toByte ((∑ i in Finset.range 7, v i * alfa_07.getD i 0) / 100))) := by
  refine ⟨indexOf_alfa_07_getD, fun index => rfl, accumulate_eq mb_col y,
    callback_bands mb_col y, ?_⟩
  intro index p v hv
  exact finalize_weightedLayers_present mb_col y index p v hv

/-- C2: at every pixel the overlay `index_band_post.blend(index_band_prev).blend(index_band)`
shows the target value where the target is present, else the previous-year value where that
is present (whatever the post-year value), else the post-year value, else no-data; the
result is always one of the three input samples, never a mixture. -/
theorem index_blend_priority (target prev post : Raster) (p : Pixel) :
    index_blend target prev post p = firstPresent (target p) (prev p) (post p) ∧
    (∀ v, target p = some v → index_blend target prev post p = some v) ∧
    (∀ v, target p = none → prev p = some v → index_blend target prev post p = some v) ∧
    (target p = none → prev p = none → index_blend target prev post p = post p) ∧
    (target p = none → prev p = none → post p = none → index_blend target prev post p = none) ∧
    (index_blend target prev post p = target p ∨ index_blend target prev post p = prev p ∨
      index_blend target prev post p = post p) := by
  unfold index_blend blend firstPresent
  cases ht : target p <;> cases hp : prev p <;> cases hq : post p <;> simp

/-- C3: the neighbour years of a lag are computed from its clamped contributing year `c`:
(c + 1, c + 2) when `c` is 1985, (c - 1, c - 2) when `c` is 2023 and (c - 1, c + 1)
otherwise; the loop body reads the three mosaics of `c` and of these two years, so for
output year 1986 and lag 1 the neighbours are those of 1985, not those of 1986. -/
theorem neighbours_of_contributing_year (mb_col : MosaicSource) (year : Int) (factor : ℚ)
    (c : Containers) :
    (year_prev (year_decay year factor), year_post (year_decay year factor)) =
      neighbourYears (year_decay year factor) ∧
    lagStep mb_col year c factor =
      mb_indices_year.foldl
        (indexStep mb_col (year_decay year factor) (neighbourYears (year_decay year factor)).1
          (neighbourYears (year_decay year factor)).2 factor) c ∧
    (year_prev (year_decay 1986 (229 / 1000)), year_post (year_decay 1986 (229 / 1000))) =
      (1986, 1987) := by
  have key : ∀ q : Int, (year_prev q, year_post q) = neighbourYears q := by
    intro q
    rw [year_prev_eq, year_post_eq]
    unfold neighbourYears
    split_ifs <;> first | rfl | omega
  refine ⟨key _, ?_, ?_⟩
  · rw [← key]
    rfl
  · rw [(year_decay_alfa_07 1986).2.1, year_prev_eq, year_post_eq]
    norm_num

/-- C4: for output year 1985 every factor has contributing year 1985, so every band of the
returned image is the byte cast of a hundredth of the single gap-filled 1985 raster times
the sum of the weights (999/1000); it is no-data exactly where that raster is, and elsewhere
differs from the byte cast of a hundredth of the raster by at most one unit, downwards. -/
theorem min_year_collapse (mb_col : MosaicSource) :
    (∀ factor ∈ alfa_07, year_decay 1985 factor = 1985) ∧
    (callback mb_col 1985).bands =
      mb_indices_year.map
        (fun index =>
          ("mb_" ++ index,
            byte (divide (multiply (gapFilled mb_col 1985 index) alfa_07.sum) 100))) ∧
    (∀ index p,
      (byte (divide (multiply (gapFilled mb_col 1985 index) alfa_07.sum) 100) p = none ↔
        byte (divide (gapFilled mb_col 1985 index) 100) p = none) ∧
      ∀ r s, byte (divide (multiply (gapFilled mb_col 1985 index) alfa_07.sum) 100) p = some r →
        byte (divide (gapFilled mb_col 1985 index) 100) p = some s → r ≤ s ∧ s ≤ r + 1) := by
  refine ⟨?_, ?_, ?_⟩
  · exact year_decay_min_year
  · rw [callback_bands]
    simp only [finalize_weightedLayers_min_year]
  · intro index p
    have hsum : alfa_07.sum = 999 / 1000 := by norm_num [alfa_07]
    simp only [byte, divide, multiply, hsum]
    cases gapFilled mb_col 1985 index p with
    | none => simp
    | some v =>
      simp only [Option.map_some', Option.some.injEq, false_iff, not_false_eq_true, true_and,
        reduceCtorEq]
      intro r s hr hs
      have key := toByte_scaled_within_one (v / 100)
      have e : v / 100 * (999 / 1000) = v * (999 / 1000) / 100 := by ring
      rw [e, hr, hs] at key
      exact key

/-- C5: for an output year strictly between 1991 and 2023 the seven contributing years are
y, y - 1, ..., y - 6 in lag order, none of them clamped, and they are pairwise distinct. -/
theorem interior_contributing_years (y : Int) (hlo : 1991 < y) (hhi : y < 2023) :
    alfa_07.map (year_decay y) = [y, y - 1, y - 2, y - 3, y - 4, y - 5, y - 6] ∧
    (alfa_07.map (year_decay y)).Nodup := by
  obtain ⟨h0, h1, h2, h3, h4, h5, h6⟩ := year_decay_alfa_07 y
  have hmap : alfa_07.map (year_decay y) = [y, y - 1, y - 2, y - 3, y - 4, y - 5, y - 6] := by
    simp only [alfa_07, List.map_cons, List.map_nil, h0, h1, h2, h3, h4, h5, h6]
    have e0 : max (y - 0) 1985 = y := by omega
    have e1 : max (y - 1) 1985 = y - 1 := by omega
    have e2 : max (y - 2) 1985 = y - 2 := by omega
    have e3 : max (y - 3) 1985 = y - 3 := by omega
    have e4 : max (y - 4) 1985 = y - 4 := by omega
    have e5 : max (y - 5) 1985 = y - 5 := by omega
    have e6 : max (y - 6) 1985 = y - 6 := by omega
    rw [e0, e1, e2, e3, e4, e5, e6]
  refine ⟨hmap, ?_⟩
  rw [hmap]
  simp only [List.nodup_cons, List.mem_cons, List.mem_singleton, List.not_mem_nil,
    List.nodup_nil, or_false, and_true, not_or, not_false_eq_true]
  omega

theorem interior_contributing_years_witness :
    alfa_07.map (year_decay 2000) = [2000, 2000 - 1, 2000 - 2, 2000 - 3, 2000 - 4, 2000 - 5,
      2000 - 6] ∧ (alfa_07.map (year_decay 2000)).Nodup :=
  interior_contributing_years 2000 (by decide) (by decide)

/-- C6: `alfa_07` holds exactly 7 non-negative weights, their exact rational sum is within
1/1000 of 1 (it is 999/1000), and the weights strictly decrease with the lag, hence are
non-increasing. -/
theorem alfa_07_valid :
    alfa_07.length = 7 ∧ (∀ w ∈ alfa_07, 0 ≤ w) ∧ |alfa_07.sum - 1| ≤ 1 / 1000 ∧
    alfa_07.sum = 999 / 1000 ∧ List.Pairwise (fun a b => b < a) alfa_07 ∧
    List.Pairwise (fun a b => b ≤ a) alfa_07 := by
  have hsum : alfa_07.sum = 999 / 1000 := by norm_num [alfa_07]
  refine ⟨rfl, ?_, ?_, hsum, ?_, ?_⟩
  · intro w hw
    rw [mem_alfa_07_iff] at hw
    rcases hw with h | h | h | h | h | h | h <;> rw [h] <;> norm_num
  · rw [hsum]
    norm_num [abs_le]
  · norm_num [alfa_07]
  · norm_num [alfa_07]

/-- C7, the claim as stated fails: with a source that is masked up to 1987 and constant
from 1988 on, the lag-6 layer of output year 1990 has its target, previous and post rasters
all no-data and is no-data itself, yet the composite pixel is present: it is 82, the byte
cast of a hundredth of the sum of the four present layers. -/
theorem missing_layer_is_skipped :
    index_band lateSource (year_decay 1990 (38 / 1000)) "ndvi_median" (0, 0) = none ∧
    index_band lateSource (year_prev (year_decay 1990 (38 / 1000))) "ndvi_median" (0, 0)
      = none ∧
    index_band lateSource (year_post (year_decay 1990 (38 / 1000))) "ndvi_median" (0, 0)
      = none ∧
    gapFilled lateSource (year_decay 1990 (38 / 1000)) "ndvi_median" (0, 0) = none ∧
    (callback lateSource 1990).band "mb_ndvi_median" (0, 0) = some 82 := by
  have hc : year_decay 1990 (38 / 1000) = 1985 := by
    rw [(year_decay_alfa_07 1990).2.2.2.2.2.2]
    decide
  rw [hc]
  refine ⟨rfl, rfl, rfl, rfl, ?_⟩
  have hb := callback_band lateSource 1990 "ndvi_median" (by decide)
  have hname : "mb_" ++ "ndvi_median" = "mb_ndvi_median" := by decide
  rw [hname] at hb
  obtain ⟨g0, g1, g2, g3, g4, g5, g6⟩ := lateSource_layers
  rw [hb, finalize_apply, weightedLayers_eq]
  simp only [validSamples, List.filterMap_cons, List.filterMap_nil, multiply, g0, g1, g2, g3, g4,
    g5, g6, Option.map_some', Option.map_none', List.sum_cons, List.sum_nil, Option.some.injEq]
  exact toByte_eq_of_bounds _ 82 (by norm_num) (by norm_num) (by norm_num)

/-- C7, amended: the composite pixel of a band is no-data exactly when the gap-filled layer
of every one of the 7 lags is no-data there, a layer being no-data exactly when its target,
previous and post rasters all are; a layer that is no-data is left out of the sum, and the
composite is the byte cast of a hundredth of the sum of the layers that are present. -/
theorem composite_masked_iff_all_layers_masked (mb_col : MosaicSource) (y : Int)
    (index : String) (hidx : index ∈ mb_indices_year) (p : Pixel) :
    (∀ c : Int, gapFilled mb_col c index p = none ↔
      (index_band mb_col c index p = none ∧ index_band mb_col (year_prev c) index p = none ∧
        index_band mb_col (year_post c) index p = none)) ∧
    ((callback mb_col y).band ("mb_" ++ index) p = none ↔
      ∀ factor ∈ alfa_07, gapFilled mb_col (year_decay y factor) index p = none) ∧
    (callback mb_col y).band ("mb_" ++ index) p =
      (match validSamples (weightedLayers mb_col y index) p with
       | [] => none
       | v :: vs => some (toByte ((v :: vs).sum / 100))) := by
  refine ⟨fun c => gapFilled_eq_none_iff mb_col c index p, ?_, ?_⟩
  · rw [callback_band mb_col y index hidx, finalize_eq_none_iff, weightedLayers_masked_iff]
  · rw [callback_band mb_col y index hidx, finalize_apply]

theorem composite_masked_iff_all_layers_masked_witness :
    (callback lateSource 1985).band ("mb_" ++ "ndvi_median") (0, 0) = none :=
  (composite_masked_iff_all_layers_masked lateSource 1985 "ndvi_median" (by decide)
      (0, 0)).2.1.2
    (by
      intro factor hf
      have hc := year_decay_min_year factor hf
      rw [hc]
      rfl)

/-- C8, the claim as stated fails: with every source mosaic constant at 80 the rounded
weighted sum of the claim is 80, but the band of the composite for output year 2002 is 0,
because the weighted sum 79.92 is divided by 100 before the cast to byte. -/
theorem constant_80_composite_is_zero :
    (∀ y satellite index p, constantSource 80 y satellite index p = some 80) ∧
    round ((alfa_07.map (fun w => w * (80 : ℚ))).sum) = (80 : Int) ∧
    (callback (constantSource 80) 2002).band "mb_ndvi_median" (0, 0) = some 0 := by
  refine ⟨fun _ _ _ _ => rfl, ?_, ?_⟩
  · rw [round_eq, Int.floor_eq_iff]
    norm_num [alfa_07]
  · have hb := callback_band (constantSource 80) 2002 "ndvi_median" (by decide)
    have hname : "mb_" ++ "ndvi_median" = "mb_ndvi_median" := by decide
    rw [hname] at hb
    rw [hb, composite_constant (constantSource 80) 80 (fun _ _ _ _ => rfl) 2002 (by decide)]
    simp only [Option.some.injEq]
    exact toByte_eq_of_bounds _ 0 (by norm_num) (by norm_num [alfa_07]) (by norm_num [alfa_07])

/-- C8, amended: when every source mosaic is the constant raster of value `v` without
no-data pixel, then for every output year of `years` gap-filling is a no-op (the overlay
equals the target raster) and every band of the composite is the byte cast of a hundredth
of the weighted sum, i.e. of `v * 999 / 100000`; with `v = 80` every band is 0. -/
theorem constant_source_composite (mb_col : MosaicSource) (v : ℚ)
    (h : ∀ y satellite index p, mb_col y satellite index p = some v) (y : Int)
    (hy : y ∈ years) :
    (∀ factor ∈ alfa_07, ∀ index,
      gapFilled mb_col (year_decay y factor) index =
        index_band mb_col (year_decay y factor) index) ∧
    (callback mb_col y).bands =
      mb_indices_year.map
        (fun index =>
          ("mb_" ++ index,
            fun _ => some (toByte ((alfa_07.map (fun w => v * w)).sum / 100)))) ∧
    (alfa_07.map (fun w => v * w)).sum / 100 = v * 999 / 100000 ∧
    (v = 80 → toByte ((alfa_07.map (fun w => v * w)).sum / 100) = 0) := by
  refine ⟨?_, ?_, ?_, ?_⟩
  · intro factor hf index
    have hq := year_decay_in_range y hy factor hf
    exact (gapFilled_constant mb_col v h _ hq.1 hq.2 index).1
  · rw [callback_bands]
    simp only [composite_constant mb_col v h y hy]
  · norm_num [alfa_07]
    ring
  · intro hv
    subst hv
    exact toByte_eq_of_bounds _ 0 (by norm_num) (by norm_num [alfa_07]) (by norm_num [alfa_07])

theorem constant_source_composite_witness :
    (callback (constantSource 8000) 2002).bands =
      mb_indices_year.map
        (fun index =>
          ("mb_" ++ index,
            fun _ => some (toByte ((alfa_07.map (fun w => (8000 : ℚ) * w)).sum / 100)))) :=
  (constant_source_composite (constantSource 8000) 8000 (fun _ _ _ _ => rfl) 2002
    (by decide)).2.1

/-- C9: for every output year of `years` the returned image carries `year = y`, a start time
that is `ee.Date` of the text `y-01-01`, i.e. midnight UTC of 1 January of `y`, and an end
time that is midnight UTC of 1 January of `y + 1`; for 2005 the texts are `2005-01-01` and
`2006-01-01` and the times are 1104537600000 and 1136073600000 milliseconds after the epoch,
which are 2005-01-01T00:00:00 and 2006-01-01T00:00:00. -/
theorem callback_metadata (mb_col : MosaicSource) (y : Int) (hy : y ∈ years) :
    (callback mb_col y).year = y ∧
    (callback mb_col y).time_start = eeDateMillis (toString y ++ "-01-01") ∧
    (callback mb_col y).time_end = eeDateMillis (toString (y + 1) ++ "-01-01") ∧
    (callback mb_col y).time_start = some (janFirstMillis y) ∧
    (callback mb_col y).time_end = some (janFirstMillis (y + 1)) ∧
    toString (2005 : Int) ++ "-01-01" = "2005-01-01" ∧
    toString ((2005 : Int) + 1) ++ "-01-01" = "2006-01-01" ∧
    (callback mb_col 2005).time_start = some 1104537600000 ∧
    (callback mb_col 2005).time_end = some 1136073600000 ∧
    utcMillis 2005 1 1 = 1104537600000 ∧ utcMillis 2006 1 1 = 1136073600000 := by
  obtain ⟨hs, he⟩ := time_start_eq mb_col y hy
  exact ⟨rfl, rfl, rfl, hs, he, by rfl, by rfl, by rfl, by rfl, by rfl, by rfl⟩

theorem callback_metadata_witness :
    (callback (constantSource 8000) 2005).year = 2005 ∧
    (callback (constantSource 8000) 2005).time_start = some 1104537600000 ∧
    (callback (constantSource 8000) 2005).time_end = some 1136073600000 :=
  ⟨(callback_metadata (constantSource 8000) 2005 (by decide)).1,
    (callback_metadata (constantSource 8000) 2005 (by decide)).2.2.2.2.2.2.2.1,
    (callback_metadata (constantSource 8000) 2005 (by decide)).2.2.2.2.2.2.2.2.1⟩

/-- C10: for every output year of `years` and every factor of `alfa_07`, the three years the
loop body queries (the clamped contributing year, `year_prev` and `year_post`) lie in
1985..2023 and each has an entry in `year_sat`. -/
theorem queried_years_in_range (y : Int) (hy : y ∈ years) (factor : ℚ) (hf : factor ∈ alfa_07) :
    ∀ q ∈ [year_decay y factor, year_prev (year_decay y factor),
        year_post (year_decay y factor)],
      1985 ≤ q ∧ q ≤ 2023 ∧ q ∈ years ∧ ∃ satellite, year_sat_at q = some satellite := by
  have hc := year_decay_in_range y hy factor hf
  have hrange : ∀ q ∈ [year_decay y factor, year_prev (year_decay y factor),
      year_post (year_decay y factor)], 1985 ≤ q ∧ q ≤ 2023 := by
    intro q hq
    simp only [List.mem_cons, List.mem_singleton, List.not_mem_nil, or_false] at hq
    rw [year_prev_eq, year_post_eq] at hq
    rcases hq with h | h | h
    · omega
    · split_ifs at h <;> omega
    · split_ifs at h <;> omega
  intro q hq
  obtain ⟨h1, h2⟩ := hrange q hq
  refine ⟨h1, h2, (mem_years_iff q).2 ⟨h1, h2⟩, ?_⟩
  exact Option.isSome_iff_exists.1 (year_sat_at_isSome q h1 h2)

theorem queried_years_in_range_witness :
    (1985 : Int) ∈ years ∧ (38 / 1000 : ℚ) ∈ alfa_07 ∧
    (1985 ≤ year_post (year_decay 1985 (38 / 1000)) ∧
      year_post (year_decay 1985 (38 / 1000)) ≤ 2023 ∧
      year_post (year_decay 1985 (38 / 1000)) ∈ years ∧
      ∃ satellite, year_sat_at (year_post (year_decay 1985 (38 / 1000))) = some satellite) :=
  ⟨by decide, by norm_num [alfa_07],
    queried_years_in_range 1985 (by decide) (38 / 1000) (by norm_num [alfa_07])
      (year_post (year_decay 1985 (38 / 1000))) (by simp)⟩

end DecayVI
